import Mathlib

/-!
Shallow embedding of `QUANTAXIS/QAFactor/fetcher.py`.

The module queries financial-statement data, remotely (tushare) and from a
local MongoDB store.  Documents of a collection are modelled by the `Doc`
structure (one field per document key used by the queries, plus a payload of
further keys), a MongoDB filter document by `Qry`, and a pandas DataFrame by a
list of association-list rows together with an optional index column.
Python exceptions are modelled by `Except PyExc`.
-/

namespace QAFactor

/-- A calendar date (a `pd.Timestamp` at day granularity). -/
structure Date where
  year : Nat
  month : Nat
  day : Nat
deriving DecidableEq, Repr

/-- Chronological order on dates; for valid dates `pd.Timestamp` comparison is
lexicographic on (year, month, day). -/
def Date.le (a b : Date) : Prop :=
  a.year < b.year ∨ (a.year = b.year ∧ (a.month < b.month ∨ (a.month = b.month ∧ a.day ≤ b.day)))

instance : LE Date := ⟨Date.le⟩

instance (a b : Date) : Decidable (a ≤ b) :=
  decidable_of_iff
    (a.year < b.year ∨ (a.year = b.year ∧ (a.month < b.month ∨ (a.month = b.month ∧ a.day ≤ b.day))))
    Iff.rfl

/-- Civil-calendar day number (days since 1970-01-01); the day count that
underlies `QA_util_date_stamp` and `pd.Timedelta` day arithmetic. -/
def Date.toDays (d : Date) : Int :=
  let y : Nat := if d.month ≤ 2 then d.year - 1 else d.year
  let era : Nat := y / 400
  let yoe : Nat := y % 400
  let mp : Nat := (d.month + 9) % 12
  let doy : Nat := (153 * mp + 2) / 5 + d.day - 1
  let doe : Nat := yoe * 365 + yoe / 4 - yoe / 100 + doy
  ((era * 146097 + doe : Nat) : Int) - 719468

/-- `QA_util_date_stamp`: the seconds-since-epoch stamp of a calendar date
(86400 seconds per day, midnight of the day). -/
def QA_util_date_stamp (d : Date) : Int := 86400 * d.toDays

/-- Two-digit zero padding, as used by `strftime`. -/
def fmt2 (n : Nat) : String := if n < 10 then "0" ++ toString n else toString n

/-- Four-digit zero padding, as used by `strftime`. -/
def fmt4 (n : Nat) : String :=
  if n < 10 then "000" ++ toString n
  else if n < 100 then "00" ++ toString n
  else if n < 1000 then "0" ++ toString n
  else toString n

/-- `strftime` with format `%Y%m%d`. -/
def Date.strfmtYmd (d : Date) : String := fmt4 d.year ++ fmt2 d.month ++ fmt2 d.day

/-- fetcher.py line 30. -/
def REPORT_DATE_TAILS : List String := ["0331", "0630", "0930", "1231"]

/-- fetcher.py line 31. -/
def SHEET_TYPE : List String := ["income", "balancesheet", "cashflow"]

/-- fetcher.py line 32. -/
def REPORT_TYPE : List String := ["1", "2", "3", "4", "5", "11"]

/-- `pd.Timestamp(str(year) + report_date_tail)`: parse a month-day tail
against a year, on the four tails the module uses. -/
def tailToDate (year : Nat) (tail : String) : Date :=
  if tail = "0331" then ⟨year, 3, 31⟩
  else if tail = "0630" then ⟨year, 6, 30⟩
  else if tail = "0930" then ⟨year, 9, 30⟩
  else if tail = "1231" then ⟨year, 12, 31⟩
  else ⟨year, 0, 0⟩

/-- Python exceptions raised by the module. -/
inductive PyExc where
  | valueError (msg : String)
  | typeError (msg : String)
  | keyError (msg : String)
deriving DecidableEq, Repr

/-- One MongoDB document of a financial-statement collection: the keys the
queries touch as typed fields, every further statement field in `others`. -/
structure Doc where
  oid : String
  code : String
  ann_date : String
  f_ann_date : String
  report_date : String
  report_type : String
  report_label : String
  update_flag : String
  ann_date_stamp : Int
  f_ann_date_stamp : Int
  report_date_stamp : Int
  others : List (String × String)
deriving DecidableEq, Repr

/-- A materialised DataFrame row: column name to cell, in column order. -/
abbrev Row := List (String × String)

/-- A pandas DataFrame: rows plus the optional index column set on it. -/
structure Frame where
  indexCol : Option String
  rows : List Row
deriving DecidableEq, Repr

/-- `pd.DataFrame([item for item in cursor])`: one row per document; the
MongoDB key `_id` is the `oid` field. -/
def Doc.toRow (d : Doc) : Row :=
  [("_id", d.oid), ("code", d.code), ("ann_date", d.ann_date), ("f_ann_date", d.f_ann_date),
   ("report_date", d.report_date), ("report_type", d.report_type),
   ("report_label", d.report_label), ("update_flag", d.update_flag),
   ("ann_date_stamp", toString d.ann_date_stamp),
   ("f_ann_date_stamp", toString d.f_ann_date_stamp),
   ("report_date_stamp", toString d.report_date_stamp)]
  ++ d.others

/-- The column set of a materialised frame (union of the row keys). -/
def columnsOf (rows : List Row) : List String := (rows.flatMap (fun r => r.map Prod.fst)).dedup

/-- `df.drop(columns="_id")`: removes the column, raising `KeyError` when the
frame has no such column (as on an empty frame). -/
def drop_id (rows : List Row) : Except PyExc (List Row) :=
  if ("_id") ∈ columnsOf rows then
    .ok (rows.map (fun r => r.filter (fun kv => decide (kv.1 ≠ "_id"))))
  else .error (.keyError ("_id"))

/-- `df[fields]`: column projection, raising `KeyError` when a requested
column is absent; absent cells of a ragged row read as NaN. -/
def project (flds : List String) (rows : List Row) : Except PyExc (List Row) :=
  if ∀ f ∈ flds, f ∈ columnsOf rows then
    .ok (rows.map (fun r => flds.map (fun f => (f, ((r.lookup f).getD ("NaN"))))))
  else .error (.keyError ("fields"))

/-- `pd.DataFrame(cursor).drop(columns="_id")` followed by `[fields]` when a
field list is in effect (`flds = []` models a Python-falsy `fields`). -/
def materialize (flds : List String) (docs : List Doc) : Except PyExc (List Row) :=
  match drop_id (docs.map Doc.toRow) with
  | .error e => .error e
  | .ok rows => if flds.isEmpty then .ok rows else project flds rows

/-- Python string comparison (as used by `sorted` and by pandas group keys):
lexicographic on the code points. -/
def pyStrLe (a b : String) : Prop := a.toList.map Char.toNat ≤ b.toList.map Char.toNat

instance : DecidableRel pyStrLe := fun _ _ => inferInstanceAs (Decidable (_ ≤ _))

instance : IsTotal String pyStrLe := ⟨fun _ _ => le_total _ _⟩

instance : IsTrans String pyStrLe := ⟨fun _ _ _ h1 h2 => le_trans h1 h2⟩

/-- The (report_date_stamp, f_ann_date_stamp) sort key of a document. -/
def stampKey (d : Doc) : Int × Int := (d.report_date_stamp, d.f_ann_date_stamp)

/-- Lexicographic order on stamp pairs. -/
def stampLexLe (a b : Int × Int) : Prop := a.1 < b.1 ∨ (a.1 = b.1 ∧ a.2 ≤ b.2)

instance (a b : Int × Int) : Decidable (stampLexLe a b) :=
  decidable_of_iff (a.1 < b.1 ∨ (a.1 = b.1 ∧ a.2 ≤ b.2)) Iff.rfl

/-- `.sort([("report_date_stamp", ASCENDING), ("f_ann_date_stamp", ASCENDING)])`. -/
def ascKeyRel (d d' : Doc) : Prop := stampLexLe (stampKey d) (stampKey d')

/-- `.sort([("report_date_stamp", DESCENDING), ("f_ann_date_stamp", DESCENDING)])`. -/
def descKeyRel (d d' : Doc) : Prop := stampLexLe (stampKey d') (stampKey d)

instance : DecidableRel ascKeyRel := fun _ _ => inferInstanceAs (Decidable (stampLexLe _ _))

instance : DecidableRel descKeyRel := fun _ _ => inferInstanceAs (Decidable (stampLexLe _ _))

instance : IsTotal Doc ascKeyRel := ⟨fun a b => by unfold ascKeyRel stampLexLe; omega⟩

instance : IsTrans Doc ascKeyRel :=
  ⟨fun a b c h1 h2 => by unfold ascKeyRel stampLexLe at *; omega⟩

instance : IsRefl Doc ascKeyRel := ⟨fun a => by unfold ascKeyRel stampLexLe; omega⟩

instance : IsTotal Doc descKeyRel := ⟨fun a b => by unfold descKeyRel stampLexLe; omega⟩

instance : IsTrans Doc descKeyRel :=
  ⟨fun a b c h1 h2 => by unfold descKeyRel stampLexLe at *; omega⟩

instance : IsRefl Doc descKeyRel := ⟨fun a => by unfold descKeyRel stampLexLe; omega⟩

/-- A MongoDB filter document, covering the constraint shapes the module
builds (absent entries are `none`). -/
structure Qry where
  code : Option (List String) := Option.none
  f_ann_gte : Option Int := Option.none
  f_ann_lte : Option Int := Option.none
  f_ann_gt : Option Int := Option.none
  f_ann_lt : Option Int := Option.none
  report_date_eq : Option String := Option.none
  report_date_stamp_eq : Option Int := Option.none
  report_type_in : Option (List String) := Option.none
  report_type_eq : Option String := Option.none
  report_label_eq : Option String := Option.none
deriving Repr

/-- `coll.find(qry)` membership test of one document against the filter. -/
def Qry.matches (q : Qry) (d : Doc) : Bool :=
  (match q.code with | Option.none => true | some cs => decide (d.code ∈ cs)) &&
  (match q.f_ann_gte with | Option.none => true | some v => decide (v ≤ d.f_ann_date_stamp)) &&
  (match q.f_ann_lte with | Option.none => true | some v => decide (d.f_ann_date_stamp ≤ v)) &&
  (match q.f_ann_gt with | Option.none => true | some v => decide (v < d.f_ann_date_stamp)) &&
  (match q.f_ann_lt with | Option.none => true | some v => decide (d.f_ann_date_stamp < v)) &&
  (match q.report_date_eq with | Option.none => true | some v => decide (d.report_date = v)) &&
  (match q.report_date_stamp_eq with | Option.none => true | some v => decide (d.report_date_stamp = v)) &&
  (match q.report_type_in with | Option.none => true | some l => decide (d.report_type ∈ l)) &&
  (match q.report_type_eq with | Option.none => true | some v => decide (d.report_type = v)) &&
  (match q.report_label_eq with | Option.none => true | some v => decide (d.report_label = v))

/-- A `fields` argument: `None`, a single string, or a list/tuple. -/
inductive FieldsArg where
  | none
  | str (s : String)
  | list (l : List String)
deriving DecidableEq, Repr

/-- A `report_type` argument: `None`, an int, a string, or a list/tuple. -/
inductive ReportTypeArg where
  | none
  | int (i : Int)
  | str (s : String)
  | list (l : List String)
deriving DecidableEq, Repr

/-- fetcher.py lines 101-103 and 217-219: the single-string `fields` transform
of the remote queries, `sorted(list(set([fields, "ts_code", "end_date",
"ann_date", "f_ann_date", "report_type", "update_flag"])))`. -/
def remote_str_fields (f : String) : List String :=
  List.insertionSort pyStrLe
    (([f, "ts_code", "end_date", "ann_date", "f_ann_date", "report_type", "update_flag"]).dedup)

/-- fetcher.py lines 259-261: the single-string `fields` transform of
`QA_fetch_crosssection_financial`, `sorted(list(set([fields, "code",
"report_date", "ann_date", "f_ann_date", "report_type", "update_flag"])))`. -/
def crosssection_local_str_fields (f : String) : List String :=
  List.insertionSort pyStrLe
    (([f, "code", "report_date", "ann_date", "f_ann_date", "report_type", "update_flag"]).dedup)

/-- fetcher.py lines 435-437 and 369-371: the single-string `fields` transform
of `QA_fetch_last_financial` and `QA_fetch_financial_adv`,
`list(set([fields, "code", "ann_date", "report_date", "f_ann_date"]))`. -/
def local_str_fields (f : String) : List String :=
  ([f, "code", "ann_date", "report_date", "f_ann_date"]).dedup

/-- fetcher.py lines 435-440 / 369-374: full `fields` normalisation of the
local advanced queries; `[]` models a Python-falsy `fields` (`None`, `()`,
`[]`), for which no projection happens downstream. -/
def local_fields (fields : FieldsArg) : List String :=
  match fields with
  | .str s => local_str_fields s
  | .list l => if l.isEmpty then [] else (l ++ ["code", "ann_date", "report_date", "f_ann_date"]).dedup
  | .none => []

/-- fetcher.py lines 259-261: `fields` normalisation of the local
cross-section query (only a single string is transformed). -/
def crosssection_local_fields (fields : FieldsArg) : List String :=
  match fields with
  | .str s => crosssection_local_str_fields s
  | .list l => l
  | .none => []

/-- The pandas group key of a row under a key column. -/
def rowKey (keyCol : String) (r : Row) : String := ((r.lookup keyCol).getD (""))

/-- `df.groupby(keyCol).apply(lambda x: x.iloc[0])`: group keys ascending
(pandas sorts them), per key the first row of `rows` in that group. -/
def groupby_first (keyCol : String) (rows : List Row) : List (String × Row) :=
  (List.insertionSort pyStrLe ((rows.map (rowKey keyCol)).dedup)).filterMap
    (fun c => (rows.find? (fun r => rowKey keyCol r == c)).map (fun r => (c, r)))

/-- fetcher.py lines 78-94, the retry wrapper `_get_individual_financial`:
`attempt k = some df` means the k-th tushare call returns `df` (which the
source then renames to the local schema), `none` that it raises.  The second
component records the `time.sleep(wait_seconds)` durations performed.  The
`except` branch recurses but drops the recursive result, so a successful
retry yields `none` (Python `None`). -/
def get_individual_financial {α : Type} (maxTrial : Nat) (waitSeconds : Nat)
    (attempt : Nat → Option α) (trialCount : Nat) : Except PyExc (Option α) × List Nat :=
  if maxTrial ≤ trialCount then (.error (.valueError ("[ERROR]\tEXCEED MAX TRIAL!")), [])
  else
    match attempt trialCount with
    | some df => (.ok (some df), [])
    | Option.none =>
        let r := get_individual_financial maxTrial waitSeconds attempt (trialCount + 1)
        (r.1.map (fun _ => Option.none), waitSeconds :: r.2)
termination_by maxTrial - trialCount
decreasing_by simp_wf; omega

/-- fetcher.py lines 179-200, the retry wrapper `_get_crosssection_financial`:
same retry skeleton as `get_individual_financial` (the success path differs
only in the post-processing of the fetched frame). -/
def get_crosssection_financial {α : Type} (maxTrial : Nat) (waitSeconds : Nat)
    (attempt : Nat → Option α) (trialCount : Nat) : Except PyExc (Option α) × List Nat :=
  if maxTrial ≤ trialCount then (.error (.valueError ("[ERROR]\tEXCEED MAX TRIAL!")), [])
  else
    match attempt trialCount with
    | some df => (.ok (some df), [])
    | Option.none =>
        let r := get_crosssection_financial maxTrial waitSeconds attempt (trialCount + 1)
        (r.1.map (fun _ => Option.none), waitSeconds :: r.2)
termination_by maxTrial - trialCount
decreasing_by simp_wf; omega

/-- fetcher.py lines 98-115: the parameter validation of
`QA_fetch_get_individual_financial` (message texts abbreviated, quotes
dropped).  The alignment, sheet-type and report-type checks run only when a
`report_date` is supplied. -/
def individual_validate (start end_ report_date : Option Date)
    (sheet_type : String) (report_type : Int) : Except PyExc Unit :=
  if start = Option.none ∧ end_ = Option.none ∧ report_date = Option.none then
    .error (.valueError ("[QRY_DATES ERROR]\tparam start, end and report_date should not be none at the same time!"))
  else
    match report_date with
    | some rd =>
        if ¬ (rd ∈ REPORT_DATE_TAILS.map (fun t => tailToDate rd.year t)) then
          .error (.valueError ("[REPORT_DATE ERROR]"))
        else if ¬ (sheet_type ∈ ["income", "balancesheet", "cashflow", "forecast", "express"]) then
          .error (.valueError ("[SHEET_TYPE ERROR]"))
        else if ¬ (1 ≤ report_type ∧ report_type < 13) then
          .error (.valueError ("[REPORT_TYPE ERROR]"))
        else .ok ()
    | Option.none => .ok ()

/-- fetcher.py lines 206-225: the parameter validation of
`QA_fetch_get_crosssection_financial` (`report_date.strftime("%Y%m%d")` must
be one of `str(year) + tail`). -/
def crosssection_validate (report_date : Date) (report_type : Int)
    (sheet_type : String) : Except PyExc Unit :=
  if ¬ (report_date.strfmtYmd ∈ REPORT_DATE_TAILS.map (fun t => toString report_date.year ++ t)) then
    .error (.valueError ("[REPORT_DATE ERROR]"))
  else if ¬ (sheet_type ∈ SHEET_TYPE) then
    .error (.valueError ("[SHEET_TYPE ERROR]"))
  else if ¬ (1 ≤ report_type ∧ report_type < 13) then
    .error (.valueError ("[REPORT_TYTPE ERROR]"))
  else .ok ()

/-- fetcher.py lines 121-122: `pd.date_range(str(start_year), str(end_year+1),
freq="Y")` mapped to its year strings - the years from `start_year` through
`end_year`. -/
def origin_year_ranges (start_year end_year : Nat) : List Nat :=
  List.range' start_year (end_year + 1 - start_year)

/-- fetcher.py lines 123-124: all four quarter-end dates of each year of the
range. -/
def origin_report_ranges (start_year end_year : Nat) : List Date :=
  (origin_year_ranges start_year end_year).flatMap
    (fun y => REPORT_DATE_TAILS.map (fun t => tailToDate y t))

/-- fetcher.py lines 125-126: the report dates kept, those inside
`[start, end]`. -/
def individual_report_dates (start end_ : Date) : List Date :=
  (origin_report_ranges start.year end_.year).filter
    (fun d => decide (start ≤ d) && decide (d ≤ end_))

/-- fetcher.py lines 128-131: the `period` strings submitted remotely, one
per kept report date, formatted `%Y%m%d`. -/
def individual_report_periods (start end_ : Date) : List String :=
  (individual_report_dates start end_).map Date.strfmtYmd

/-- fetcher.py lines 259-275: `QA_fetch_crosssection_financial`, the local
cross-section query.  `db` models `DATABASE`, mapping a sheet name to its
collection. -/
def QA_fetch_crosssection_financial (db : String → List Doc) (report_date : Date)
    (report_type : Int) (sheet_type : String) (fields : FieldsArg) : Except PyExc Frame :=
  let flds := crosssection_local_fields fields
  let res := (db sheet_type).filter
    (Qry.matches { report_date_eq := some report_date.strfmtYmd,
                   report_type_eq := some (toString report_type) })
  if res.isEmpty then .ok ⟨Option.none, []⟩
  else (materialize flds res).map (fun rows => ⟨Option.none, rows⟩)

/-- fetcher.py lines 311-316: `report_type` normalisation of
`QA_fetch_financial_adv` (default tuple on falsy input, stringified
otherwise). -/
def adv_report_type (rt : ReportTypeArg) : List String :=
  match rt with
  | .none => ["1", "2", "4", "5", "11"]
  | .int i => if i = 0 then ["1", "2", "4", "5", "11"] else [toString i]
  | .str s => if s = "" then ["1", "2", "4", "5", "11"] else [s]
  | .list l => if l.isEmpty then ["1", "2", "4", "5", "11"] else l

/-- fetcher.py lines 376-382: shared tail of `QA_fetch_financial_adv` - find,
sort ascending by (report_date_stamp, f_ann_date_stamp), materialise with the
optional projection, `set_index("code")` (recorded as the frame's index
column). -/
def adv_tail (coll : List Doc) (qry : Qry) (fields : FieldsArg) : Except PyExc Frame :=
  let flds := local_fields fields
  let docs := List.insertionSort ascKeyRel (coll.filter qry.matches)
  match materialize flds docs with
  | .error e => .error e
  | .ok rows => .ok ⟨some ("code"), rows⟩

/-- The `"code": {"$in": code}` entry appears in a query only when `code` is
truthy (a non-empty tuple). -/
def code_filter (code : Option (List String)) : Option (List String) :=
  match code with
  | Option.none => Option.none
  | some l => if l.isEmpty then Option.none else some l

/-- fetcher.py lines 278-382: `QA_fetch_financial_adv`.  `code` folds the
str-to-tuple wrap of line 309; `today` models `datetime.date.today()`.
`pd.Timestamp(None)` is NaT, whose stamping fails, modelled as an error. -/
def QA_fetch_financial_adv (db : String → List Doc) (code : Option (List String))
    (start end_ report_date : Option Date) (report_type : ReportTypeArg)
    (sheet_type : String) (fields : FieldsArg) (today : Date) : Except PyExc Frame :=
  if start = Option.none ∧ end_ = Option.none ∧ report_date = Option.none then
    .error (.valueError ("[DATE ERROR]\tstart, end and report_date must not all be None"))
  else
    let rt := adv_report_type report_type
    let coll := db sheet_type
    match report_date with
    | Option.none =>
        match start with
        | Option.none => .error (.valueError ("[TIMESTAMP ERROR] NaT"))
        | some st =>
            let end1 := end_.getD today
            adv_tail coll
              { code := code_filter code,
                f_ann_gte := some (QA_util_date_stamp st),
                f_ann_lte := some (QA_util_date_stamp end1),
                report_type_in := some rt }
              fields
    | some rd =>
        adv_tail coll
          { code := code_filter code,
            report_date_stamp_eq := some (QA_util_date_stamp rd),
            report_type_in := some rt }
          fields

/-- fetcher.py lines 418-428: `report_type` normalisation of
`QA_fetch_last_financial`.  Falsy input (None, 0, "", empty collection)
defaults to ["1", "4", "5"]; an int is stringified and then, like a string,
checked against that set; a truthy list or tuple reaches line 428, whose
`set(report_type) & set('1', '4', '5')` calls the `set` constructor with
three arguments and therefore raises `TypeError` (Python's `set` accepts at
most one argument). -/
def last_report_type (rt : ReportTypeArg) : Except PyExc (List String) :=
  match rt with
  | .none => .ok ["1", "4", "5"]
  | .int i =>
      if i = 0 then .ok ["1", "4", "5"]
      else if toString i ∈ (["1", "4", "5"] : List String) then .ok [toString i]
      else .error (.valueError ("[REPORT_TYPE ERROR]"))
  | .str s =>
      if s = "" then .ok ["1", "4", "5"]
      else if s ∈ (["1", "4", "5"] : List String) then .ok [s]
      else .error (.valueError ("[REPORT_TYPE ERROR]"))
  | .list l =>
      if l.isEmpty then .ok ["1", "4", "5"]
      else .error (.typeError ("set expected at most 1 argument, got 3"))

/-- fetcher.py lines 443-532: the four query documents of
`QA_fetch_last_financial`, folded over the truthiness of `code` and
`report_label` (each of the four source dicts is this `Qry` with its absent
entries omitted).  The `f_ann_date_stamp` window is
`$gt` stamp((cursor_date - 400 days).strftime("%Y-%m-%d")) and
`$lt` stamp(cursor_date). -/
def last_financial_qry (cursor_date : Date) (code : Option (List String))
    (report_label : Option String) (rts : List String) : Qry :=
  { code := code_filter code,
    f_ann_gt := some (86400 * (cursor_date.toDays - 400)),
    f_ann_lt := some (QA_util_date_stamp cursor_date),
    report_type_in := some rts,
    report_label_eq :=
      match report_label with
      | Option.none => Option.none
      | some s => if s = "" then Option.none else some s }

/-- fetcher.py lines 454-464 (identical in all four branches): find, sort
descending by (report_date_stamp, f_ann_date_stamp), materialise under a
`try` whose bare `except` re-raises `ValueError("[QRY ERROR]")`, then take
the first row per code. -/
def last_financial_tail (coll : List Doc) (qry : Qry) (flds : List String) :
    Except PyExc (List (String × Row)) :=
  let docs := List.insertionSort descKeyRel (coll.filter qry.matches)
  match materialize flds docs with
  | .error _ => .error (.valueError ("[QRY ERROR]"))
  | .ok rows => .ok (groupby_first ("code") rows)

/-- fetcher.py lines 385-532: `QA_fetch_last_financial`.  `code` folds the
str-to-tuple wrap of line 417; `report_label` folds the `str(...)` of line
433 (an int label arrives as its decimal string). -/
def QA_fetch_last_financial (db : String → List Doc) (code : Option (List String))
    (cursor_date : Date) (report_label : Option String) (report_type : ReportTypeArg)
    (sheet_type : String) (fields : FieldsArg) : Except PyExc (List (String × Row)) :=
  match last_report_type report_type with
  | .error e => .error e
  | .ok rts =>
      if ¬ (sheet_type ∈ SHEET_TYPE) then .error (.valueError ("[SHEET_TYPE ERROR]"))
      else
        last_financial_tail (db sheet_type)
          (last_financial_qry cursor_date code report_label rts)
          (local_fields fields)

/-- The row of a document after the `_id` drop. -/
def rowNoId (d : Doc) : Row := (Doc.toRow d).filter (fun kv => decide (kv.1 ≠ "_id"))

/-- The record-selection window of `QA_fetch_last_financial` as the
specification states it: first-announcement stamp strictly inside the span
from (cursor_date minus the 400-day lookback) to cursor_date, and an allowed
report type. -/
def last_financial_window (cursor_date : Date) (d : Doc) : Prop :=
  86400 * (cursor_date.toDays - 400) < d.f_ann_date_stamp ∧
  d.f_ann_date_stamp < QA_util_date_stamp cursor_date ∧
  d.report_type ∈ (["1", "4", "5"] : List String)

instance (cursor_date : Date) (d : Doc) : Decidable (last_financial_window cursor_date d) :=
  decidable_of_iff
    (86400 * (cursor_date.toDays - 400) < d.f_ann_date_stamp ∧
     d.f_ann_date_stamp < QA_util_date_stamp cursor_date ∧
     d.report_type ∈ (["1", "4", "5"] : List String))
    Iff.rfl

/-- A sample half-year income statement of stock 000001 (used by concrete
instantiations). -/
def sampleDoc1 : Doc :=
  ⟨"a1", "000001", "20180830", "20180830", "20180630", "1", "2", "1",
   86400 * Date.toDays ⟨2018, 8, 30⟩, 86400 * Date.toDays ⟨2018, 8, 30⟩,
   86400 * Date.toDays ⟨2018, 6, 30⟩, [("basic_eps", "0.5")]⟩

/-- A sample first-quarter income statement of stock 000001. -/
def sampleDoc2 : Doc :=
  ⟨"a2", "000001", "20180428", "20180428", "20180331", "1", "1", "1",
   86400 * Date.toDays ⟨2018, 4, 28⟩, 86400 * Date.toDays ⟨2018, 4, 28⟩,
   86400 * Date.toDays ⟨2018, 3, 31⟩, [("basic_eps", "0.2")]⟩

/-- A sample half-year income statement of stock 000528. -/
def sampleDoc3 : Doc :=
  ⟨"a3", "000528", "20180829", "20180829", "20180630", "1", "2", "1",
   86400 * Date.toDays ⟨2018, 8, 29⟩, 86400 * Date.toDays ⟨2018, 8, 29⟩,
   86400 * Date.toDays ⟨2018, 6, 30⟩, [("basic_eps", "0.7")]⟩

/-- A sample store with an income collection of three documents. -/
def sampleDB : String → List Doc :=
  fun s => if s = "income" then [sampleDoc2, sampleDoc1, sampleDoc3] else []

/-- A sample document whose report date 2020-01-15 is not quarter-aligned. -/
def sampleDoc4 : Doc :=
  ⟨"a4", "000001", "20200120", "20200120", "20200115", "1", "1", "1",
   86400 * Date.toDays ⟨2020, 1, 20⟩, 86400 * Date.toDays ⟨2020, 1, 20⟩,
   86400 * Date.toDays ⟨2020, 1, 15⟩, [("basic_eps", "0.9")]⟩

/-- A sample store whose income collection holds the misaligned document. -/
def sampleDB4 : String → List Doc :=
  fun s => if s = "income" then [sampleDoc4] else []

/-! ## Theorems -/

theorem get_crosssection_eq_get_individual {α : Type} (maxTrial waitSeconds : Nat)
    (attempt : Nat → Option α) : ∀ t,
    get_crosssection_financial maxTrial waitSeconds attempt t =
      get_individual_financial maxTrial waitSeconds attempt t := by
  suffices h : ∀ n t, maxTrial - t = n →
      get_crosssection_financial maxTrial waitSeconds attempt t =
        get_individual_financial maxTrial waitSeconds attempt t by
    intro t; exact h (maxTrial - t) t rfl
  intro n
  induction n with
  | zero =>
      intro t hn
      have hle : maxTrial ≤ t := by omega
      rw [get_crosssection_financial, get_individual_financial, if_pos hle, if_pos hle]
  | succ n ih =>
      intro t hn
      have hlt : ¬ maxTrial ≤ t := by omega
      rw [get_crosssection_financial, get_individual_financial, if_neg hlt, if_neg hlt]
      cases attempt t with
      | some df => rfl
      | none => rw [ih (t + 1) (by omega)]

theorem get_individual_all_fail {α : Type} (maxTrial waitSeconds : Nat)
    (attempt : Nat → Option α) : ∀ t,
    (∀ k, t ≤ k → k < maxTrial → attempt k = Option.none) →
    get_individual_financial maxTrial waitSeconds attempt t =
      (.error (.valueError ("[ERROR]\tEXCEED MAX TRIAL!")),
       List.replicate (maxTrial - t) waitSeconds) := by
  suffices h : ∀ n t, maxTrial - t = n →
      (∀ k, t ≤ k → k < maxTrial → attempt k = Option.none) →
      get_individual_financial maxTrial waitSeconds attempt t =
        (.error (.valueError ("[ERROR]\tEXCEED MAX TRIAL!")),
         List.replicate (maxTrial - t) waitSeconds) by
    intro t ht; exact h (maxTrial - t) t rfl ht
  intro n
  induction n with
  | zero =>
      intro t hn ht
      have hle : maxTrial ≤ t := by omega
      rw [get_individual_financial, if_pos hle, hn]
      rfl
  | succ n ih =>
      intro t hn ht
      have hlt : ¬ maxTrial ≤ t := by omega
      rw [get_individual_financial, if_neg hlt, ht t (Nat.le_refl t) (by omega),
        ih (t + 1) (by omega) (fun k hk1 hk2 => ht k (by omega) hk2)]
      have hrep : maxTrial - t = (maxTrial - (t + 1)) + 1 := by omega
      rw [hrep, List.replicate_succ]
      rfl

theorem get_individual_agrees {α : Type} (maxTrial waitSeconds : Nat)
    (attempt attempt' : Nat → Option α) : ∀ t,
    (∀ k, t ≤ k → k < maxTrial → attempt' k = attempt k) →
    get_individual_financial maxTrial waitSeconds attempt' t =
      get_individual_financial maxTrial waitSeconds attempt t := by
  suffices h : ∀ n t, maxTrial - t = n →
      (∀ k, t ≤ k → k < maxTrial → attempt' k = attempt k) →
      get_individual_financial maxTrial waitSeconds attempt' t =
        get_individual_financial maxTrial waitSeconds attempt t by
    intro t ht; exact h (maxTrial - t) t rfl ht
  intro n
  induction n with
  | zero =>
      intro t hn ht
      have hle : maxTrial ≤ t := by omega
      conv_lhs => rw [get_individual_financial]
      conv_rhs => rw [get_individual_financial]
      rw [if_pos hle, if_pos hle]
  | succ n ih =>
      intro t hn ht
      have hlt : ¬ maxTrial ≤ t := by omega
      conv_lhs => rw [get_individual_financial]
      conv_rhs => rw [get_individual_financial]
      rw [if_neg hlt, if_neg hlt, ht t (Nat.le_refl t) (by omega)]
      cases attempt t with
      | some df => rfl
      | none => rw [ih (t + 1) (by omega) (fun k hk1 hk2 => ht k (by omega) hk2)]

theorem get_individual_eventual_success {α : Type} (maxTrial waitSeconds : Nat)
    (attempt : Nat → Option α) : ∀ t,
    (∃ k, t ≤ k ∧ k < maxTrial ∧ attempt k ≠ Option.none) →
    ∃ x, (get_individual_financial maxTrial waitSeconds attempt t).1 = .ok x := by
  suffices h : ∀ n t, maxTrial - t = n →
      (∃ k, t ≤ k ∧ k < maxTrial ∧ attempt k ≠ Option.none) →
      ∃ x, (get_individual_financial maxTrial waitSeconds attempt t).1 = .ok x by
    intro t ht; exact h (maxTrial - t) t rfl ht
  intro n
  induction n with
  | zero =>
      intro t hn ht
      obtain ⟨k, hk1, hk2, _⟩ := ht
      exfalso; omega
  | succ n ih =>
      intro t hn ht
      obtain ⟨k, hk1, hk2, hk3⟩ := ht
      rw [get_individual_financial, if_neg (by omega)]
      cases ha : attempt t with
      | some df => exact ⟨some df, rfl⟩
      | none =>
          have hk1' : t + 1 ≤ k := by
            have hne : k ≠ t := fun he => hk3 (he ▸ ha)
            omega
          obtain ⟨x, hx⟩ := ih (t + 1) (by omega) ⟨k, hk1', hk2, hk3⟩
          refine ⟨Option.none, ?_⟩
          simp only [hx, Except.map]

/-- C2: in both retry wrappers, each failed attempt sleeps the constant
`wait_seconds` (one sleep per failure, no backoff) and re-attempts; at most
`max_trial` attempts run in total - the result never depends on attempt
outcomes beyond index `max_trial - 1` - and when every attempt fails the
call raises `ValueError("[ERROR]\tEXCEED MAX TRIAL!")` instead of the
original exception. -/
theorem c2_retry_bounded_raises {α : Type} (maxTrial waitSeconds : Nat)
    (attempt : Nat → Option α)
    (hfail : ∀ k, k < maxTrial → attempt k = Option.none) :
    (get_individual_financial maxTrial waitSeconds attempt 0 =
       (.error (.valueError ("[ERROR]\tEXCEED MAX TRIAL!")),
        List.replicate maxTrial waitSeconds)) ∧
    (get_crosssection_financial maxTrial waitSeconds attempt 0 =
       (.error (.valueError ("[ERROR]\tEXCEED MAX TRIAL!")),
        List.replicate maxTrial waitSeconds)) ∧
    (∀ attempt' : Nat → Option α, (∀ k, k < maxTrial → attempt' k = attempt k) →
       get_individual_financial maxTrial waitSeconds attempt' 0 =
         get_individual_financial maxTrial waitSeconds attempt 0 ∧
       get_crosssection_financial maxTrial waitSeconds attempt' 0 =
         get_crosssection_financial maxTrial waitSeconds attempt 0) := by
  have hall := get_individual_all_fail maxTrial waitSeconds attempt 0
    (fun k _ hk => hfail k hk)
  have hall' : maxTrial - 0 = maxTrial := by omega
  rw [hall'] at hall
  refine ⟨hall, ?_, ?_⟩
  · rw [get_crosssection_eq_get_individual]; exact hall
  · intro attempt' hagree
    have h1 := get_individual_agrees maxTrial waitSeconds attempt attempt' 0
      (fun k _ hk => hagree k hk)
    exact ⟨h1, by rw [get_crosssection_eq_get_individual,
      get_crosssection_eq_get_individual]; exact h1⟩

theorem c2_retry_bounded_raises_witness :
    (∀ k, k < 3 → (fun _ => (Option.none : Option Nat)) k = Option.none) ∧
    ((get_individual_financial 3 61 (fun _ => (Option.none : Option Nat)) 0 =
       (.error (.valueError ("[ERROR]\tEXCEED MAX TRIAL!")), List.replicate 3 61)) ∧
     (get_crosssection_financial 3 61 (fun _ => (Option.none : Option Nat)) 0 =
       (.error (.valueError ("[ERROR]\tEXCEED MAX TRIAL!")), List.replicate 3 61)) ∧
     (∀ attempt' : Nat → Option Nat,
        (∀ k, k < 3 → attempt' k = (fun _ => (Option.none : Option Nat)) k) →
        get_individual_financial 3 61 attempt' 0 =
          get_individual_financial 3 61 (fun _ => (Option.none : Option Nat)) 0 ∧
        get_crosssection_financial 3 61 attempt' 0 =
          get_crosssection_financial 3 61 (fun _ => (Option.none : Option Nat)) 0)) :=
  ⟨fun _ _ => rfl, c2_retry_bounded_raises 3 61 (fun _ => Option.none) (fun _ _ => rfl)⟩

/-- C3: in both retry wrappers the `except` branch drops the recursive
call's return value, so when the first attempt fails and a later attempt
(within the trial bound) succeeds, the wrapper returns Python `None` instead
of the fetched data. -/
theorem c3_retry_loses_result {α : Type} (maxTrial waitSeconds : Nat)
    (attempt : Nat → Option α) (k : Nat)
    (h0 : attempt 0 = Option.none) (hk : k < maxTrial)
    (hsucc : attempt k ≠ Option.none) :
    (get_individual_financial maxTrial waitSeconds attempt 0).1 = .ok Option.none ∧
    (get_crosssection_financial maxTrial waitSeconds attempt 0).1 = .ok Option.none := by
  have hpos : ¬ maxTrial ≤ 0 := by omega
  have hk1 : 1 ≤ k := by
    have hne : k ≠ 0 := fun he => hsucc (he ▸ h0)
    omega
  obtain ⟨x, hx⟩ := get_individual_eventual_success maxTrial waitSeconds attempt 1
    ⟨k, hk1, hk, hsucc⟩
  have hmain : (get_individual_financial maxTrial waitSeconds attempt 0).1 = .ok Option.none := by
    rw [get_individual_financial, if_neg hpos, h0]
    simp only [hx, Except.map]
  exact ⟨hmain, by rw [get_crosssection_eq_get_individual]; exact hmain⟩

theorem c3_retry_loses_result_witness :
    ((fun k => if k = 1 then some 7 else (Option.none : Option Nat)) 0 = Option.none) ∧
    (1 < 3) ∧
    ((fun k => if k = 1 then some 7 else (Option.none : Option Nat)) 1 ≠ Option.none) ∧
    ((get_individual_financial 3 61
        (fun k => if k = 1 then some 7 else (Option.none : Option Nat)) 0).1 =
          .ok Option.none ∧
     (get_crosssection_financial 3 61
        (fun k => if k = 1 then some 7 else (Option.none : Option Nat)) 0).1 =
          .ok Option.none) :=
  ⟨rfl, by omega, by decide,
   c3_retry_loses_result 3 61 (fun k => if k = 1 then some 7 else Option.none) 1
     rfl (by omega) (by decide)⟩

/-- C6: with a start/end range (and no report_date), the report periods
queried remotely are exactly the quarter-end dates (March 31, June 30,
September 30, December 31) of the years from start's year through end's
year that fall inside [start, end], each submitted in YYYYMMDD format. -/
theorem c6_report_period_enumeration (start end_ : Date) (p : String) :
    p ∈ individual_report_periods start end_ ↔
      ∃ d : Date, ((d.month, d.day) ∈ ([(3, 31), (6, 30), (9, 30), (12, 31)] : List (Nat × Nat))) ∧
        start.year ≤ d.year ∧ d.year ≤ end_.year ∧ start ≤ d ∧ d ≤ end_ ∧ p = d.strfmtYmd := by
  simp only [individual_report_periods, individual_report_dates, origin_report_ranges,
    origin_year_ranges, REPORT_DATE_TAILS, tailToDate, List.mem_map, List.mem_filter,
    List.mem_flatMap, List.mem_range'_1, List.mem_cons, List.not_mem_nil, or_false,
    Bool.and_eq_true, decide_eq_true_eq]
  constructor
  · rintro ⟨d, ⟨⟨y, ⟨hy1, hy2⟩, t, ht, heq⟩, hd1, hd2⟩, hp⟩
    rcases ht with rfl | rfl | rfl | rfl <;> simp only [reduceIte] at heq <;> subst heq
    · exact ⟨⟨y, 3, 31⟩, by simp, hy1, by show y ≤ end_.year; omega, hd1, hd2, hp.symm⟩
    · exact ⟨⟨y, 6, 30⟩, by simp, hy1, by show y ≤ end_.year; omega, hd1, hd2, hp.symm⟩
    · exact ⟨⟨y, 9, 30⟩, by simp, hy1, by show y ≤ end_.year; omega, hd1, hd2, hp.symm⟩
    · exact ⟨⟨y, 12, 31⟩, by simp, hy1, by show y ≤ end_.year; omega, hd1, hd2, hp.symm⟩
  · rintro ⟨⟨dy, dm, dd⟩, hmd, hy1, hy2, hle1, hle2, hp⟩
    rcases hmd with h | h | h | h <;> simp only [Prod.mk.injEq] at h <;>
      obtain ⟨rfl, rfl⟩ := h
    · exact ⟨⟨dy, 3, 31⟩, ⟨⟨dy, ⟨hy1, by have h2 : dy ≤ end_.year := hy2; omega⟩, "0331", Or.inl rfl, by simp⟩, hle1, hle2⟩,
        hp.symm⟩
    · exact ⟨⟨dy, 6, 30⟩, ⟨⟨dy, ⟨hy1, by have h2 : dy ≤ end_.year := hy2; omega⟩, "0630", by simp, by simp⟩, hle1, hle2⟩,
        hp.symm⟩
    · exact ⟨⟨dy, 9, 30⟩, ⟨⟨dy, ⟨hy1, by have h2 : dy ≤ end_.year := hy2; omega⟩, "0930", by simp, by simp⟩, hle1, hle2⟩,
        hp.symm⟩
    · exact ⟨⟨dy, 12, 31⟩, ⟨⟨dy, ⟨hy1, by have h2 : dy ≤ end_.year := hy2; omega⟩, "1231", by simp, by simp⟩, hle1, hle2⟩,
        hp.symm⟩

/-- C7 counterexample: the claimed mandatory column set is wrong for the
local cross-section query - with the single-string field "basic_eps" its
effective list also contains "update_flag", which is not in the union of
that field with the claimed local key columns code, ann_date, report_date,
f_ann_date. -/
theorem c7_counterexample :
    ("update_flag") ∈ crosssection_local_fields (FieldsArg.str ("basic_eps")) ∧
    ("update_flag") ∉
      (["basic_eps", "code", "ann_date", "report_date", "f_ann_date"] : List String) := by
  decide

/-- C7 amended: a single-string `fields` is replaced by the deduplicated
union of that field with the function's mandatory columns - ts_code,
end_date, ann_date, f_ann_date, report_type, update_flag (sorted) for the
remote queries; code, report_date, ann_date, f_ann_date, report_type,
update_flag (sorted) for the local cross-section query; code, ann_date,
report_date, f_ann_date for QA_fetch_financial_adv and
QA_fetch_last_financial - so the requested field and every mandatory column
appear exactly once in the projection list. -/
theorem c7_field_union (f c : String) :
    ((c = f ∨ c ∈ (["ts_code", "end_date", "ann_date", "f_ann_date", "report_type",
        "update_flag"] : List String)) → (remote_str_fields f).count c = 1) ∧
    ((c = f ∨ c ∈ (["code", "report_date", "ann_date", "f_ann_date", "report_type",
        "update_flag"] : List String)) → (crosssection_local_str_fields f).count c = 1) ∧
    ((c = f ∨ c ∈ (["code", "ann_date", "report_date", "f_ann_date"] : List String)) →
      (local_str_fields f).count c = 1) := by
  refine ⟨fun h => ?_, fun h => ?_, fun h => ?_⟩
  · unfold remote_str_fields
    rw [(List.perm_insertionSort pyStrLe _).count_eq, List.count_dedup, if_pos ?_]
    rcases h with rfl | h
    · exact List.mem_cons_self _ _
    · exact List.mem_cons_of_mem _ h
  · unfold crosssection_local_str_fields
    rw [(List.perm_insertionSort pyStrLe _).count_eq, List.count_dedup, if_pos ?_]
    rcases h with rfl | h
    · exact List.mem_cons_self _ _
    · exact List.mem_cons_of_mem _ h
  · unfold local_str_fields
    rw [List.count_dedup, if_pos ?_]
    rcases h with rfl | h
    · exact List.mem_cons_self _ _
    · exact List.mem_cons_of_mem _ h

theorem c7_field_union_witness :
    (("ts_code" = "basic_eps" ∨ ("ts_code" : String) ∈ (["ts_code", "end_date", "ann_date",
        "f_ann_date", "report_type", "update_flag"] : List String)) ∧
      (remote_str_fields ("basic_eps")).count ("ts_code") = 1) ∧
    (("update_flag" = "basic_eps" ∨ ("update_flag" : String) ∈ (["code", "report_date",
        "ann_date", "f_ann_date", "report_type", "update_flag"] : List String)) ∧
      (crosssection_local_str_fields ("basic_eps")).count ("update_flag") = 1) ∧
    (("basic_eps" = "basic_eps" ∨ ("basic_eps" : String) ∈ (["code", "ann_date",
        "report_date", "f_ann_date"] : List String)) ∧
      (local_str_fields ("basic_eps")).count ("basic_eps") = 1) :=
  ⟨⟨by decide, (c7_field_union ("basic_eps") ("ts_code")).1 (by decide)⟩,
   ⟨by decide, (c7_field_union ("basic_eps") ("update_flag")).2.1 (by decide)⟩,
   ⟨by decide, (c7_field_union ("basic_eps") ("basic_eps")).2.2 (by decide)⟩⟩

/-- C9 counterexample: with `report_type` passed as the empty list (a list,
neither None nor int nor str), `QA_fetch_last_financial` does not raise a
TypeError - the empty collection is Python-falsy, so line 418 replaces it
with the default before line 428 is reached, and a result is returned. -/
theorem c9_counterexample :
    QA_fetch_last_financial sampleDB Option.none ⟨2018, 8, 31⟩ Option.none
      (ReportTypeArg.list []) "income" FieldsArg.none =
    .ok [("000001",
      [("code", "000001"), ("ann_date", "20180830"), ("f_ann_date", "20180830"),
       ("report_date", "20180630"), ("report_type", "1"), ("report_label", "2"),
       ("update_flag", "1"), ("ann_date_stamp", "1535587200"),
       ("f_ann_date_stamp", "1535587200"), ("report_date_stamp", "1530316800"),
       ("basic_eps", "0.5")]),
     ("000528",
      [("code", "000528"), ("ann_date", "20180829"), ("f_ann_date", "20180829"),
       ("report_date", "20180630"), ("report_type", "1"), ("report_label", "2"),
       ("update_flag", "1"), ("ann_date_stamp", "1535500800"),
       ("f_ann_date_stamp", "1535500800"), ("report_date_stamp", "1530316800"),
       ("basic_eps", "0.7")])] := by
  rfl

/-- C9 amended: for `report_type` passed as a non-empty list or tuple,
`QA_fetch_last_financial` raises `TypeError` before any database query (the
result is this error for every store, uniformly); an empty list or tuple is
falsy and is replaced by the default ("1", "4", "5") instead. -/
theorem c9_nonempty_list_report_type_raises (db : String → List Doc)
    (code : Option (List String)) (cursor_date : Date) (report_label : Option String)
    (l : List String) (hl : l ≠ []) (sheet_type : String) (fields : FieldsArg) :
    QA_fetch_last_financial db code cursor_date report_label (ReportTypeArg.list l)
      sheet_type fields =
      .error (.typeError ("set expected at most 1 argument, got 3")) := by
  cases l with
  | nil => exact absurd rfl hl
  | cons a t => rfl

theorem c9_nonempty_list_report_type_raises_witness :
    ((["1"] : List String) ≠ []) ∧
    QA_fetch_last_financial sampleDB Option.none ⟨2018, 8, 31⟩ Option.none
      (ReportTypeArg.list ["1"]) "income" FieldsArg.none =
      .error (.typeError ("set expected at most 1 argument, got 3")) :=
  ⟨by decide,
   c9_nonempty_list_report_type_raises sampleDB Option.none ⟨2018, 8, 31⟩ Option.none
     ["1"] (by decide) "income" FieldsArg.none⟩

/-- C10: when no stored document matches the requested report date and
report type, the local cross-section query returns an empty frame with no
columns whatever `fields` is; the `_id` drop and the `fields` projection run
only on non-empty results, where the returned rows are exactly the
materialisation of the matching documents. -/
theorem c10_crosssection_empty_frame (db : String → List Doc) (report_date : Date)
    (report_type : Int) (sheet_type : String) (fields : FieldsArg) :
    ((db sheet_type).filter
        (Qry.matches { report_date_eq := some report_date.strfmtYmd,
                       report_type_eq := some (toString report_type) }) = [] →
      QA_fetch_crosssection_financial db report_date report_type sheet_type fields =
        .ok ⟨Option.none, []⟩) ∧
    ((db sheet_type).filter
        (Qry.matches { report_date_eq := some report_date.strfmtYmd,
                       report_type_eq := some (toString report_type) }) ≠ [] →
      QA_fetch_crosssection_financial db report_date report_type sheet_type fields =
        (materialize (crosssection_local_fields fields)
          ((db sheet_type).filter
            (Qry.matches { report_date_eq := some report_date.strfmtYmd,
                           report_type_eq := some (toString report_type) }))).map
          (fun rows => ⟨Option.none, rows⟩)) := by
  constructor
  · intro h
    unfold QA_fetch_crosssection_financial
    rw [h]
    rfl
  · intro h
    unfold QA_fetch_crosssection_financial
    rw [if_neg]
    simp only [List.isEmpty_eq_true]
    exact h

theorem c10_crosssection_empty_frame_witness :
    ((sampleDB "income").filter
        (Qry.matches { report_date_eq := some (Date.strfmtYmd ⟨2017, 6, 30⟩),
                       report_type_eq := some (toString (1 : Int)) }) = []) ∧
    (QA_fetch_crosssection_financial sampleDB ⟨2017, 6, 30⟩ 1 "income"
        (FieldsArg.str ("basic_eps")) = .ok ⟨Option.none, []⟩) ∧
    ((sampleDB "income").filter
        (Qry.matches { report_date_eq := some (Date.strfmtYmd ⟨2018, 6, 30⟩),
                       report_type_eq := some (toString (1 : Int)) }) ≠ []) ∧
    (QA_fetch_crosssection_financial sampleDB ⟨2018, 6, 30⟩ 1 "income"
        (FieldsArg.str ("basic_eps")) =
      (materialize (crosssection_local_fields (FieldsArg.str ("basic_eps")))
        ((sampleDB "income").filter
          (Qry.matches { report_date_eq := some (Date.strfmtYmd ⟨2018, 6, 30⟩),
                         report_type_eq := some (toString (1 : Int)) }))).map
        (fun rows => ⟨Option.none, rows⟩)) :=
  ⟨by decide,
   (c10_crosssection_empty_frame sampleDB ⟨2017, 6, 30⟩ 1 "income"
     (FieldsArg.str ("basic_eps"))).1 (by decide),
   by decide,
   (c10_crosssection_empty_frame sampleDB ⟨2018, 6, 30⟩ 1 "income"
     (FieldsArg.str ("basic_eps"))).2 (by decide)⟩

/-- C8: whenever materialising or projecting the local query result inside
`QA_fetch_last_financial` fails - with any underlying exception `e` at all,
e.g. a requested field missing from the columns - the function raises the
generic `ValueError("[QRY ERROR]")`, a constant that does not carry `e`. -/
theorem c8_qry_error_masks_cause (db : String → List Doc) (code : Option (List String))
    (cursor_date : Date) (report_label : Option String) (report_type : ReportTypeArg)
    (sheet_type : String) (fields : FieldsArg) (rts : List String) (e : PyExc)
    (hrt : last_report_type report_type = .ok rts)
    (hsheet : sheet_type ∈ SHEET_TYPE)
    (hfail : materialize (local_fields fields)
        (List.insertionSort descKeyRel
          ((db sheet_type).filter
            (last_financial_qry cursor_date code report_label rts).matches)) = .error e) :
    QA_fetch_last_financial db code cursor_date report_label report_type sheet_type fields =
      .error (.valueError ("[QRY ERROR]")) := by
  unfold QA_fetch_last_financial
  rw [hrt]
  dsimp only
  rw [if_neg (not_not_intro hsheet)]
  unfold last_financial_tail
  dsimp only
  rw [hfail]

theorem c8_qry_error_masks_cause_witness :
    (last_report_type ReportTypeArg.none = .ok ["1", "4", "5"]) ∧
    (("income") ∈ SHEET_TYPE) ∧
    (materialize (local_fields (FieldsArg.list ["missing_col"]))
        (List.insertionSort descKeyRel
          ((sampleDB "income").filter
            (last_financial_qry ⟨2018, 8, 31⟩ Option.none Option.none
              ["1", "4", "5"]).matches)) = .error (.keyError ("fields"))) ∧
    (QA_fetch_last_financial sampleDB Option.none ⟨2018, 8, 31⟩ Option.none
        ReportTypeArg.none "income" (FieldsArg.list ["missing_col"]) =
      .error (.valueError ("[QRY ERROR]"))) :=
  ⟨rfl, by decide, by rfl,
   c8_qry_error_masks_cause sampleDB Option.none ⟨2018, 8, 31⟩ Option.none
     ReportTypeArg.none "income" (FieldsArg.list ["missing_col"]) ["1", "4", "5"]
     (.keyError ("fields")) rfl (by decide) (by rfl)⟩

/-- C4 counterexample: not every query function validates these parameters.
`QA_fetch_financial_adv`, given a report_date that is not quarter-aligned
(2020-01-15), raises no ValueError at all - it runs the query and returns a
result. -/
theorem c4_counterexample :
    ((Date.mk 2020 1 15) ∉ REPORT_DATE_TAILS.map (fun t => tailToDate 2020 t)) ∧
    QA_fetch_financial_adv sampleDB4 Option.none Option.none Option.none
      (some ⟨2020, 1, 15⟩) ReportTypeArg.none "income" FieldsArg.none ⟨2021, 1, 1⟩ =
    .ok ⟨some ("code"),
      [[("code", "000001"), ("ann_date", "20200120"), ("f_ann_date", "20200120"),
        ("report_date", "20200115"), ("report_type", "1"), ("report_label", "1"),
        ("update_flag", "1"), ("ann_date_stamp", "1579478400"),
        ("f_ann_date_stamp", "1579478400"), ("report_date_stamp", "1579046400"),
        ("basic_eps", "0.9")]]⟩ :=
  ⟨by decide, by rfl⟩

/-- C4 amended: validation is per-function and partial.
`QA_fetch_get_individual_financial` raises a ValueError when start, end and
report_date are all None, and - only when a report_date is supplied - on a
non-quarter-aligned report_date, an unsupported sheet name (of its five), or
a report type outside 1..12; with only a start/end range its validation
passes without sheet or report-type checks.
`QA_fetch_get_crosssection_financial` raises on a misaligned report_date, a
sheet name outside SHEET_TYPE, or a report type outside 1..12.
`QA_fetch_financial_adv` raises a ValueError only when start, end and
report_date are all None. -/
theorem c4_per_function_validation :
    (∀ st rt, individual_validate Option.none Option.none Option.none st rt =
      .error (.valueError
        ("[QRY_DATES ERROR]\tparam start, end and report_date should not be none at the same time!"))) ∧
    (∀ s e rd st rt, rd ∉ REPORT_DATE_TAILS.map (fun t => tailToDate rd.year t) →
      individual_validate s e (some rd) st rt = .error (.valueError ("[REPORT_DATE ERROR]"))) ∧
    (∀ s e rd st rt, rd ∈ REPORT_DATE_TAILS.map (fun t => tailToDate rd.year t) →
      st ∉ (["income", "balancesheet", "cashflow", "forecast", "express"] : List String) →
      individual_validate s e (some rd) st rt = .error (.valueError ("[SHEET_TYPE ERROR]"))) ∧
    (∀ s e rd st rt, rd ∈ REPORT_DATE_TAILS.map (fun t => tailToDate rd.year t) →
      st ∈ (["income", "balancesheet", "cashflow", "forecast", "express"] : List String) →
      ¬ (1 ≤ rt ∧ rt < 13) →
      individual_validate s e (some rd) st rt = .error (.valueError ("[REPORT_TYPE ERROR]"))) ∧
    (∀ s e st rt, ¬ (s = Option.none ∧ e = Option.none) →
      individual_validate s e Option.none st rt = .ok ()) ∧
    (∀ rd rt st, rd.strfmtYmd ∉ REPORT_DATE_TAILS.map (fun t => toString rd.year ++ t) →
      crosssection_validate rd rt st = .error (.valueError ("[REPORT_DATE ERROR]"))) ∧
    (∀ rd rt st, rd.strfmtYmd ∈ REPORT_DATE_TAILS.map (fun t => toString rd.year ++ t) →
      st ∉ SHEET_TYPE → crosssection_validate rd rt st = .error (.valueError ("[SHEET_TYPE ERROR]"))) ∧
    (∀ rd rt st, rd.strfmtYmd ∈ REPORT_DATE_TAILS.map (fun t => toString rd.year ++ t) →
      st ∈ SHEET_TYPE → ¬ (1 ≤ rt ∧ rt < 13) →
      crosssection_validate rd rt st = .error (.valueError ("[REPORT_TYTPE ERROR]"))) ∧
    (∀ db code rt st fields today,
      QA_fetch_financial_adv db code Option.none Option.none Option.none rt st fields today =
        .error (.valueError ("[DATE ERROR]\tstart, end and report_date must not all be None"))) := by
  refine ⟨?_, ?_, ?_, ?_, ?_, ?_, ?_, ?_, ?_⟩
  · intro st rt
    unfold individual_validate
    rw [if_pos ⟨rfl, rfl, rfl⟩]
  · intro s e rd st rt h
    unfold individual_validate
    rw [if_neg (by simp)]
    dsimp only
    rw [if_pos h]
  · intro s e rd st rt h1 h2
    unfold individual_validate
    rw [if_neg (by simp)]
    dsimp only
    rw [if_neg (not_not_intro h1), if_pos h2]
  · intro s e rd st rt h1 h2 h3
    unfold individual_validate
    rw [if_neg (by simp)]
    dsimp only
    rw [if_neg (not_not_intro h1), if_neg (not_not_intro h2), if_pos h3]
  · intro s e st rt h
    unfold individual_validate
    rw [if_neg (by simpa using fun hs he => h ⟨hs, he⟩)]
  · intro rd rt st h
    unfold crosssection_validate
    rw [if_pos h]
  · intro rd rt st h1 h2
    unfold crosssection_validate
    rw [if_neg (not_not_intro h1), if_pos h2]
  · intro rd rt st h1 h2 h3
    unfold crosssection_validate
    rw [if_neg (not_not_intro h1), if_neg (not_not_intro h2), if_pos h3]
  · intro db code rt st fields today
    unfold QA_fetch_financial_adv
    rw [if_pos ⟨rfl, rfl, rfl⟩]

theorem c4_per_function_validation_witness :
    (individual_validate Option.none Option.none Option.none "income" 1 =
      .error (.valueError
        ("[QRY_DATES ERROR]\tparam start, end and report_date should not be none at the same time!"))) ∧
    (individual_validate Option.none (some ⟨2020, 12, 31⟩) (some ⟨2020, 1, 15⟩) "income" 1 =
      .error (.valueError ("[REPORT_DATE ERROR]"))) ∧
    (individual_validate Option.none Option.none (some ⟨2020, 3, 31⟩) "bogus" 1 =
      .error (.valueError ("[SHEET_TYPE ERROR]"))) ∧
    (individual_validate Option.none Option.none (some ⟨2020, 3, 31⟩) "income" 13 =
      .error (.valueError ("[REPORT_TYPE ERROR]"))) ∧
    (individual_validate (some ⟨2020, 1, 1⟩) (some ⟨2020, 12, 31⟩) Option.none "bogus" 99 =
      .ok ()) ∧
    (crosssection_validate ⟨2020, 1, 15⟩ 1 "income" =
      .error (.valueError ("[REPORT_DATE ERROR]"))) ∧
    (crosssection_validate ⟨2020, 3, 31⟩ 1 "forecast" =
      .error (.valueError ("[SHEET_TYPE ERROR]"))) ∧
    (crosssection_validate ⟨2020, 3, 31⟩ 0 "income" =
      .error (.valueError ("[REPORT_TYTPE ERROR]"))) ∧
    (QA_fetch_financial_adv sampleDB Option.none Option.none Option.none Option.none
        ReportTypeArg.none "income" FieldsArg.none ⟨2021, 1, 1⟩ =
      .error (.valueError ("[DATE ERROR]\tstart, end and report_date must not all be None"))) :=
  ⟨c4_per_function_validation.1 "income" 1,
   c4_per_function_validation.2.1 Option.none (some ⟨2020, 12, 31⟩) ⟨2020, 1, 15⟩ "income" 1
     (by decide),
   c4_per_function_validation.2.2.1 Option.none Option.none ⟨2020, 3, 31⟩ "bogus" 1
     (by decide) (by decide),
   c4_per_function_validation.2.2.2.1 Option.none Option.none ⟨2020, 3, 31⟩ "income" 13
     (by decide) (by decide) (by decide),
   c4_per_function_validation.2.2.2.2.1 (some ⟨2020, 1, 1⟩) (some ⟨2020, 12, 31⟩) "bogus" 99
     (by decide),
   c4_per_function_validation.2.2.2.2.2.1 ⟨2020, 1, 15⟩ 1 "income" (by decide),
   c4_per_function_validation.2.2.2.2.2.2.1 ⟨2020, 3, 31⟩ 1 "forecast" (by decide) (by decide),
   c4_per_function_validation.2.2.2.2.2.2.2.1 ⟨2020, 3, 31⟩ 0 "income" (by decide) (by decide)
     (by decide),
   c4_per_function_validation.2.2.2.2.2.2.2.2 sampleDB Option.none ReportTypeArg.none "income"
     FieldsArg.none ⟨2021, 1, 1⟩⟩

theorem adv_tail_shape (coll : List Doc) (qry : Qry) (fields : FieldsArg) (fr : Frame)
    (h : adv_tail coll qry fields = .ok fr) :
    fr.indexCol = some ("code") ∧
    ∃ ds : List Doc, List.Sorted ascKeyRel ds ∧ ds.Perm (coll.filter qry.matches) ∧
      materialize (local_fields fields) ds = .ok fr.rows := by
  unfold adv_tail at h
  dsimp only at h
  cases hm : materialize (local_fields fields)
      (List.insertionSort ascKeyRel (coll.filter qry.matches)) with
  | error e => rw [hm] at h; exact absurd h (by simp)
  | ok rows =>
      rw [hm] at h
      injection h with h2
      subst h2
      exact ⟨rfl, List.insertionSort ascKeyRel (coll.filter qry.matches),
        List.sorted_insertionSort ascKeyRel _, List.perm_insertionSort ascKeyRel _, hm⟩

/-- C5 counterexample: `QA_fetch_crosssection_financial` does not return its
result indexed by code - with a successful concrete query the returned
frame's index column is `None`, not "code" (the source never calls
`set_index`), and its rows keep collection order rather than a stamp sort. -/
theorem c5_counterexample :
    QA_fetch_crosssection_financial sampleDB ⟨2018, 6, 30⟩ 1 "income"
        (FieldsArg.str ("basic_eps")) =
      .ok ⟨Option.none,
        [[("ann_date", "20180830"), ("basic_eps", "0.5"), ("code", "000001"),
          ("f_ann_date", "20180830"), ("report_date", "20180630"),
          ("report_type", "1"), ("update_flag", "1")],
         [("ann_date", "20180829"), ("basic_eps", "0.7"), ("code", "000528"),
          ("f_ann_date", "20180829"), ("report_date", "20180630"),
          ("report_type", "1"), ("update_flag", "1")]]⟩ ∧
    (Option.none : Option String) ≠ some ("code") :=
  ⟨by rfl, by decide⟩

/-- C5 amended: `QA_fetch_financial_adv` returns a flat table indexed by
code whose rows are the materialisation (with the optional field projection)
of its matching documents sorted ascending by report_date_stamp then
f_ann_date_stamp; `QA_fetch_crosssection_financial` returns its (projected)
rows in collection order with no index column set. -/
theorem c5_local_query_shape :
    (∀ (db : String → List Doc) code start end_ report_date report_type sheet_type fields
        today fr,
      QA_fetch_financial_adv db code start end_ report_date report_type sheet_type fields
          today = .ok fr →
      fr.indexCol = some ("code") ∧
      ∃ q ds, List.Sorted ascKeyRel ds ∧ ds.Perm ((db sheet_type).filter (Qry.matches q)) ∧
        materialize (local_fields fields) ds = .ok fr.rows) ∧
    (∀ (db : String → List Doc) report_date report_type sheet_type fields fr,
      QA_fetch_crosssection_financial db report_date report_type sheet_type fields = .ok fr →
      fr.indexCol = Option.none ∧
      (fr.rows = [] ∨
        materialize (crosssection_local_fields fields)
          ((db sheet_type).filter
            (Qry.matches { report_date_eq := some report_date.strfmtYmd,
                           report_type_eq := some (toString report_type) })) = .ok fr.rows)) := by
  constructor
  · intro db code start end_ report_date report_type sheet_type fields today fr h
    unfold QA_fetch_financial_adv at h
    split at h
    · exact absurd h (by simp)
    · split at h
      · split at h
        · exact absurd h (by simp)
        · obtain ⟨hic, ds, hs, hp, hm⟩ := adv_tail_shape _ _ _ _ h
          exact ⟨hic, _, ds, hs, hp, hm⟩
      · obtain ⟨hic, ds, hs, hp, hm⟩ := adv_tail_shape _ _ _ _ h
        exact ⟨hic, _, ds, hs, hp, hm⟩
  · intro db report_date report_type sheet_type fields fr h
    unfold QA_fetch_crosssection_financial at h
    dsimp only at h
    split at h
    · injection h with h2
      subst h2
      exact ⟨rfl, Or.inl rfl⟩
    · cases hm : materialize (crosssection_local_fields fields)
          ((db sheet_type).filter
            (Qry.matches { report_date_eq := some report_date.strfmtYmd,
                           report_type_eq := some (toString report_type) })) with
      | error e => rw [hm] at h; exact absurd h (by simp [Except.map])
      | ok rows =>
          rw [hm] at h
          simp only [Except.map] at h
          injection h with h2
          subst h2
          exact ⟨rfl, Or.inr rfl⟩

theorem c5_local_query_shape_witness :
    (QA_fetch_financial_adv sampleDB Option.none (some ⟨2018, 1, 1⟩) (some ⟨2018, 12, 31⟩)
        Option.none ReportTypeArg.none "income" (FieldsArg.str ("basic_eps")) ⟨2020, 1, 1⟩ =
      .ok ⟨some ("code"),
        [[("basic_eps", "0.2"), ("code", "000001"), ("ann_date", "20180428"),
          ("report_date", "20180331"), ("f_ann_date", "20180428")],
         [("basic_eps", "0.7"), ("code", "000528"), ("ann_date", "20180829"),
          ("report_date", "20180630"), ("f_ann_date", "20180829")],
         [("basic_eps", "0.5"), ("code", "000001"), ("ann_date", "20180830"),
          ("report_date", "20180630"), ("f_ann_date", "20180830")]]⟩) ∧
    ((Frame.mk (some ("code"))
        [[("basic_eps", "0.2"), ("code", "000001"), ("ann_date", "20180428"),
          ("report_date", "20180331"), ("f_ann_date", "20180428")],
         [("basic_eps", "0.7"), ("code", "000528"), ("ann_date", "20180829"),
          ("report_date", "20180630"), ("f_ann_date", "20180829")],
         [("basic_eps", "0.5"), ("code", "000001"), ("ann_date", "20180830"),
          ("report_date", "20180630"), ("f_ann_date", "20180830")]]).indexCol = some ("code") ∧
      ∃ q ds, List.Sorted ascKeyRel ds ∧
        ds.Perm ((sampleDB "income").filter (Qry.matches q)) ∧
        materialize (local_fields (FieldsArg.str ("basic_eps"))) ds =
          .ok (Frame.mk (some ("code"))
            [[("basic_eps", "0.2"), ("code", "000001"), ("ann_date", "20180428"),
              ("report_date", "20180331"), ("f_ann_date", "20180428")],
             [("basic_eps", "0.7"), ("code", "000528"), ("ann_date", "20180829"),
              ("report_date", "20180630"), ("f_ann_date", "20180829")],
             [("basic_eps", "0.5"), ("code", "000001"), ("ann_date", "20180830"),
              ("report_date", "20180630"), ("f_ann_date", "20180830")]]).rows) :=
  ⟨by rfl,
   (c5_local_query_shape.1 sampleDB Option.none (some ⟨2018, 1, 1⟩) (some ⟨2018, 12, 31⟩)
     Option.none ReportTypeArg.none "income" (FieldsArg.str ("basic_eps")) ⟨2020, 1, 1⟩ _
     (by rfl))⟩

theorem find_sorted_rel {α : Type} (r : α → α → Prop) [IsTrans α r] [IsRefl α r]
    {l : List α} (h : List.Sorted r l) (p : α → Bool) {a : α}
    (hf : l.find? p = some a) : ∀ b ∈ l, p b = true → r a b := by
  induction l with
  | nil => simp at hf
  | cons x xs ih =>
      intro b hb hpb
      by_cases hx : p x
      · rw [List.find?_cons_of_pos _ hx] at hf
        injection hf with hax
        subst hax
        rcases List.mem_cons.mp hb with rfl | hb2
        · exact IsRefl.refl b
        · exact (List.sorted_cons.mp h).1 b hb2
      · rw [List.find?_cons_of_neg _ (by simpa using hx)] at hf
        rcases List.mem_cons.mp hb with rfl | hb2
        · exact absurd hpb hx
        · exact ih (List.sorted_cons.mp h).2 hf b hb2 hpb

theorem drop_id_map_toRow (docs : List Doc) (hne : docs ≠ []) :
    drop_id (docs.map Doc.toRow) = .ok (docs.map rowNoId) := by
  cases docs with
  | nil => exact absurd rfl hne
  | cons d rest =>
      have hmem : ("_id") ∈ columnsOf ((d :: rest).map Doc.toRow) := by
        unfold columnsOf
        rw [List.mem_dedup]
        exact List.mem_flatMap.mpr ⟨Doc.toRow d, by simp, by simp [Doc.toRow]⟩
      unfold drop_id
      rw [if_pos hmem, List.map_map]
      rfl

theorem last_qry_matches_iff (cursor_date : Date) (d : Doc) :
    ((last_financial_qry cursor_date Option.none Option.none ["1", "4", "5"]).matches d = true)
      ↔ last_financial_window cursor_date d := by
  simp [last_financial_qry, Qry.matches, code_filter, last_financial_window, QA_util_date_stamp]
  tauto

/-- C1: with no code filter and no report_label (and default report_type and
fields), `QA_fetch_last_financial` selects exactly the stored income records
whose f_ann_date_stamp lies strictly between the stamp of (cursor_date minus
the 400-day lookback) and the stamp of cursor_date and whose report_type is
in the allowed set ("1", "4", "5"); sorting descending by report_date_stamp
then f_ann_date_stamp, it returns one row per code - a selected record of
that code whose stamp pair is lexicographically maximal among the selected
records of that code. -/
theorem c1_point_in_time_lookup (db : String → List Doc) (cursor_date : Date)
    (hne : (db ("income")).filter
        (last_financial_qry cursor_date Option.none Option.none ["1", "4", "5"]).matches ≠ []) :
    ∃ entries, QA_fetch_last_financial db Option.none cursor_date Option.none
        ReportTypeArg.none "income" FieldsArg.none = .ok entries ∧
      (∀ c, (∃ r, (c, r) ∈ entries) ↔
        ∃ d, d ∈ db ("income") ∧ last_financial_window cursor_date d ∧ d.code = c) ∧
      (∀ c r, (c, r) ∈ entries →
        ∃ d, d ∈ db ("income") ∧ last_financial_window cursor_date d ∧ d.code = c ∧
          r = rowNoId d ∧
          ∀ d2, d2 ∈ db ("income") → last_financial_window cursor_date d2 → d2.code = c →
            stampLexLe (stampKey d2) (stampKey d)) := by
  set qry := last_financial_qry cursor_date Option.none Option.none ["1", "4", "5"] with hqry
  set filtered := (db ("income")).filter qry.matches with hfiltered
  set sorted := List.insertionSort descKeyRel filtered with hsorted
  have hperm : sorted.Perm filtered := List.perm_insertionSort descKeyRel filtered
  have hsne : sorted ≠ [] := by
    intro hnil
    exact hne ((hnil ▸ hperm : List.Perm [] filtered).symm.eq_nil)
  have hstep : QA_fetch_last_financial db Option.none cursor_date Option.none
      ReportTypeArg.none "income" FieldsArg.none =
      last_financial_tail (db ("income")) qry [] := rfl
  have hmat : materialize [] sorted = .ok (sorted.map rowNoId) := by
    unfold materialize
    rw [drop_id_map_toRow sorted hsne]
    rfl
  have hfn : QA_fetch_last_financial db Option.none cursor_date Option.none
      ReportTypeArg.none "income" FieldsArg.none =
      .ok (groupby_first ("code") (sorted.map rowNoId)) := by
    rw [hstep]
    unfold last_financial_tail
    dsimp only
    rw [← hfiltered, ← hsorted, hmat]
  have hpred : ∀ c2 : String,
      ((fun r2 => rowKey ("code") r2 == c2) ∘ rowNoId) = (fun dd : Doc => dd.code == c2) :=
    fun c2 => rfl
  have hkeys : (sorted.map rowNoId).map (rowKey ("code")) = sorted.map Doc.code := by
    rw [List.map_map]
    rfl
  have hcodes_mem : ∀ c : String, (c ∈ sorted.map Doc.code) ↔
      ∃ d, d ∈ db ("income") ∧ last_financial_window cursor_date d ∧ d.code = c := by
    intro c
    rw [List.mem_map]
    constructor
    · rintro ⟨d, hd, rfl⟩
      obtain ⟨hdb, hpred2⟩ := List.mem_filter.mp (hperm.mem_iff.mp hd)
      exact ⟨d, hdb, (last_qry_matches_iff cursor_date d).mp hpred2, rfl⟩
    · rintro ⟨d, hdb, hwin, rfl⟩
      exact ⟨d, hperm.mem_iff.mpr
        (List.mem_filter.mpr ⟨hdb, (last_qry_matches_iff cursor_date d).mpr hwin⟩), rfl⟩
  have hmem : ∀ c r, ((c, r) ∈ groupby_first ("code") (sorted.map rowNoId)) ↔
      (c ∈ sorted.map Doc.code ∧
        (sorted.find? (fun dd => dd.code == c)).map rowNoId = some r) := by
    intro c r
    unfold groupby_first
    rw [List.mem_filterMap]
    constructor
    · rintro ⟨c2, hc2, hopt⟩
      rw [List.find?_map, hpred c2] at hopt
      have hc2' : c2 ∈ sorted.map Doc.code := by
        have := (List.perm_insertionSort pyStrLe _).mem_iff.mp hc2
        rw [List.mem_dedup, hkeys] at this
        exact this
      cases hfind : sorted.find? (fun dd => dd.code == c2) with
      | none => rw [hfind] at hopt; exact absurd hopt (by simp)
      | some d0 =>
          rw [hfind] at hopt
          simp only [Option.map] at hopt
          injection hopt with hopt2
          rw [Prod.mk.injEq] at hopt2
          obtain ⟨rfl, rfl⟩ := hopt2
          exact ⟨hc2', by rw [hfind]; rfl⟩
    · rintro ⟨hc, hfr⟩
      refine ⟨c, ?_, ?_⟩
      · apply (List.perm_insertionSort pyStrLe _).mem_iff.mpr
        rw [List.mem_dedup, hkeys]
        exact hc
      · rw [List.find?_map, hpred c]
        cases hfind : sorted.find? (fun dd => dd.code == c) with
        | none => rw [hfind] at hfr; exact absurd hfr (by simp)
        | some d0 =>
            rw [hfind] at hfr
            simp only [Option.map] at hfr
            injection hfr with hfr2
            simp only [Option.map]
            rw [hfr2]
  refine ⟨groupby_first ("code") (sorted.map rowNoId), hfn, ?_, ?_⟩
  · intro c
    constructor
    · rintro ⟨r, hr⟩
      exact (hcodes_mem c).mp ((hmem c r).mp hr).1
    · intro hd
      have hc : c ∈ sorted.map Doc.code := (hcodes_mem c).mpr hd
      obtain ⟨d, hdmem, rfl⟩ := List.mem_map.mp hc
      have hsome : (sorted.find? (fun dd => dd.code == d.code)).isSome :=
        List.find?_isSome.mpr ⟨d, hdmem, by simp⟩
      obtain ⟨d0, hd0⟩ := Option.isSome_iff_exists.mp hsome
      exact ⟨rowNoId d0, (hmem _ _).mpr ⟨hc, by rw [hd0]; rfl⟩⟩
  · intro c r hr
    obtain ⟨hc, hfr⟩ := (hmem c r).mp hr
    cases hfind : sorted.find? (fun dd => dd.code == c) with
    | none => rw [hfind] at hfr; exact absurd hfr (by simp)
    | some d0 =>
        rw [hfind] at hfr
        simp only [Option.map] at hfr
        injection hfr with hfr2
        have hd0mem : d0 ∈ sorted := List.mem_of_find?_eq_some hfind
        have hd0code : d0.code = c := by simpa using List.find?_some hfind
        obtain ⟨hd0db, hd0pred⟩ := List.mem_filter.mp (hperm.mem_iff.mp hd0mem)
        refine ⟨d0, hd0db, (last_qry_matches_iff cursor_date d0).mp hd0pred, hd0code,
          hfr2.symm, ?_⟩
        intro d2 hd2db hd2win hd2code
        have hd2s : d2 ∈ sorted := hperm.mem_iff.mpr
          (List.mem_filter.mpr ⟨hd2db, (last_qry_matches_iff cursor_date d2).mpr hd2win⟩)
        have hsortedS : List.Sorted descKeyRel sorted :=
          List.sorted_insertionSort descKeyRel filtered
        exact find_sorted_rel descKeyRel hsortedS (fun dd => dd.code == c) hfind d2 hd2s
          (by simp [hd2code])

theorem c1_point_in_time_lookup_witness :
    ((sampleDB "income").filter
        (last_financial_qry ⟨2018, 8, 31⟩ Option.none Option.none
          ["1", "4", "5"]).matches ≠ []) ∧
    (∃ entries, QA_fetch_last_financial sampleDB Option.none ⟨2018, 8, 31⟩ Option.none
        ReportTypeArg.none "income" FieldsArg.none = .ok entries ∧
      (∀ c, (∃ r, (c, r) ∈ entries) ↔
        ∃ d, d ∈ sampleDB ("income") ∧ last_financial_window ⟨2018, 8, 31⟩ d ∧ d.code = c) ∧
      (∀ c r, (c, r) ∈ entries →
        ∃ d, d ∈ sampleDB ("income") ∧ last_financial_window ⟨2018, 8, 31⟩ d ∧ d.code = c ∧
          r = rowNoId d ∧
          ∀ d2, d2 ∈ sampleDB ("income") → last_financial_window ⟨2018, 8, 31⟩ d2 →
            d2.code = c → stampLexLe (stampKey d2) (stampKey d))) :=
  ⟨by decide, c1_point_in_time_lookup sampleDB ⟨2018, 8, 31⟩ (by decide)⟩

end QAFactor
